import Mathlib

/-!
Shallow embedding of the simulation core of the `eternauta` 3D scene
(source: a single React component file containing the classes
`InfiniteGround`, `SnowSystem`, `PlayerCharacter`, `CameraController`,
`InputController`, `BuildingSystem`).

Modelling conventions:
* JavaScript numbers are modelled as exact rationals (`ℚ`); the source's
  float literals (0.15, 0.19, 0.006, ...) become the corresponding rationals.
* `THREE.Vector3` becomes `Vec3` below; only the fields the simulation core
  reads are kept on each record.
* `Math.random()` is modelled as an oracle stream `ℕ → ℚ` with an index,
  consumed in exactly the order the source consumes `Math.random()` calls.
* `Math.sin`/`Math.cos` (used through `THREE.Spherical`) are modelled as an
  abstract oracle `SinCos : ℚ → ℚ × ℚ` returning `(sin θ, cos θ)`; theorems
  quantify over it or pin it at the angles actually consulted.
* String map keys `"x,z"` become integer pairs (the string encoding is
  injective on integer pairs).
-/

/-- A 3D vector, the part of `THREE.Vector3` the simulation core uses. -/
structure Vec3 where
  x : ℚ
  y : ℚ
  z : ℚ
  deriving DecidableEq, Repr

/-- Grid-cell key: the source uses the string `"x,z"`; we keep the pair. -/
abbrev Cell : Type := ℤ × ℤ

/-- Trigonometry oracle standing for `(Math.sin θ, Math.cos θ)`. -/
abbrev SinCos : Type := ℚ → ℚ × ℚ

/-- `THREE.Vector3.setFromSpherical` with polar angle `φ = π / 2`, as used by
the player code: the result is `(r · sin θ, 0, r · cos θ)`.  We return the
planar `(x, z)` components; the `y` component is exactly `0` at `φ = π / 2`. -/
def sphericalXZ (trig : SinCos) (r θ : ℚ) : ℚ × ℚ :=
  (r * (trig θ).1, r * (trig θ).2)

/-- Oracle for `Math.random()`: a stream of draws plus the next index. -/
structure Rng where
  stream : ℕ → ℚ
  idx : ℕ

/-- Consume one `Math.random()` draw. -/
def Rng.next (r : Rng) : ℚ × Rng :=
  (r.stream r.idx, { r with idx := r.idx + 1 })

/-- One spawned building together with its collision box, i.e. the entries
the source stores in `BuildingSystem.buildings` (the fields of the building
mesh and of `collisionBox` that the simulation core later reads). -/
structure Building where
  /-- `collisionBox.position.x` (equal to the building position's x). -/
  centerX : ℚ
  /-- `collisionBox.position.y` (the variant-dependent building height). -/
  centerY : ℚ
  /-- `collisionBox.position.z`. -/
  centerZ : ℚ
  /-- `collisionBox.geometry.parameters.width`, i.e. `boxSize = finalScale * 0.8`. -/
  width : ℚ
  /-- The collision box height, `boxSize * 1.4` for variant 1 and `* 1.2` for 0. -/
  boxHeight : ℚ
  /-- Rotation in quarter turns `k ∈ {0,1,2,3}`; the source stores `k * π/2`. -/
  rotQuarters : ℕ
  /-- Which building model was chosen (`0` or `1`). -/
  buildingIndex : ℕ
  deriving DecidableEq, Repr

/-- The `BuildingSystem` instance state: active buildings, processed cells,
whether `loadBuildingModel` has completed, and the random oracle. -/
structure BuildingSystem where
  buildings : List (Cell × Building)
  loadedCells : List Cell
  modelsLoaded : Bool
  rng : Rng

namespace BuildingSystem

/-- `this.gridSize = 25`. -/
def gridSize : ℚ := 25

/-- `this.buildingSpacing = 12`. -/
def buildingSpacing : ℚ := 12

/-- `this.buildingChance = 0.8`. -/
def buildingChance : ℚ := 4 / 5

/-- `const collisionBuffer = buildingIndex === 1 ? 0.5 : 0.02`. -/
def collisionBuffer (buildingIndex : ℕ) : ℚ :=
  if buildingIndex = 1 then 1 / 2 else 1 / 50

/-- The collision trigger distance `buildingSize + playerRadius + collisionBuffer`
with `buildingSize = collisionBox.geometry.parameters.width / 2`. -/
def collisionThreshold (b : Building) (radius : ℚ) : ℚ :=
  b.width / 2 + radius + collisionBuffer b.buildingIndex

/-- One building's test inside `checkCollision`: the source compares
`Math.sqrt(dx*dx + dz*dz) < threshold`.  We use the square-compare form,
which is exactly equivalent because the distance is nonnegative: for a
positive threshold compare squares, and a nonpositive threshold never
exceeds a nonnegative distance (the guard `0 < thr` captures this). -/
def collidesWith (p : Vec3) (radius : ℚ) (b : Building) : Bool :=
  let dx := p.x - b.centerX
  let dz := p.z - b.centerZ
  let thr := collisionThreshold b radius
  decide (0 < thr) && decide (dx * dx + dz * dz < thr * thr)

/-- `BuildingSystem.checkCollision(playerPosition, playerRadius)`: scan the
active buildings and report whether any is within its trigger distance. -/
def checkCollision (s : BuildingSystem) (p : Vec3) (radius : ℚ) : Bool :=
  s.buildings.any fun kb => collidesWith p radius kb.2

end BuildingSystem

/-- The animation clips of the player (`this.animations` keys). -/
inductive AnimName where
  | idle
  | run
  | walk
  | jump
  deriving DecidableEq, Repr

/-- The `PlayerCharacter` instance state.  `modelLoaded` stands for
`this.model !== null`, `animationsLoaded` for the clip actions having been
created in `load()` (all four are created together once the models arrive),
and `currentAction` for which clip `this.currentAction` refers to.  The
`y`/vertical component of `this.jumpVelocity` is the only one the code ever
reads or writes after construction, so only it is kept. -/
structure PlayerCharacter where
  modelLoaded : Bool
  animationsLoaded : Bool
  currentAction : Option AnimName
  pos : Vec3
  /-- `this.rotation.y` (yaw). -/
  rotY : ℚ
  isMoving : Bool
  isJumping : Bool
  pendingMove : ℚ
  jumpVelY : ℚ
  jumpDuration : ℕ
  deriving DecidableEq, Repr

namespace PlayerCharacter

/-- `this.moveSpeed = 0.15`. -/
def moveSpeed : ℚ := 3 / 20

/-- `this.walkSpeed = 0.032`. -/
def walkSpeed : ℚ := 4 / 125

/-- `this.rotateSpeed = 0.015`. -/
def rotateSpeed : ℚ := 3 / 200

/-- `this.radius = 1.5`. -/
def playerRadius : ℚ := 3 / 2

/-- `this.jumpSpeed = 0.19`. -/
def jumpSpeed : ℚ := 19 / 100

/-- `this.jumpForwardSpeed = 0.35`. -/
def jumpForwardSpeed : ℚ := 7 / 20

/-- `this.gravity = 0.006`. -/
def gravity : ℚ := 3 / 500

/-- `this.maxJumpDuration = 90`. -/
def maxJumpDuration : ℕ := 90

/-- `this.landingHeight = 2`. -/
def landingHeight : ℚ := 2

/-- `updatePosition()`: move by `pendingMove` times the direction-dependent
speed along the facing direction, keep the height, and commit only if the
candidate position does not collide with a building. -/
def updatePosition (trig : SinCos) (bsys : BuildingSystem) (s : PlayerCharacter) :
    PlayerCharacter :=
  let speed := if 0 < s.pendingMove then moveSpeed else walkSpeed
  let mv := sphericalXZ trig speed s.rotY
  let newPos : Vec3 :=
    ⟨s.pos.x + mv.1 * s.pendingMove, s.pos.y, s.pos.z + mv.2 * s.pendingMove⟩
  if bsys.checkCollision newPos playerRadius then s else { s with pos := newPos }

/-- `setAnimation(animationName)`: no-op when the clip is missing or there is
no current action, or when the target equals the current action; otherwise
update `isMoving`, apply one immediate position update when a horizontal move
is pending, and make the target the current action (the cross-fade itself is
rendering-side). -/
def setAnimation (trig : SinCos) (bsys : BuildingSystem) (name : AnimName)
    (s : PlayerCharacter) : PlayerCharacter :=
  if s.animationsLoaded = false ∨ s.currentAction = none then s
  else if s.currentAction = some name then s
  else
    let s1 := { s with isMoving := name = AnimName.run ∨ name = AnimName.walk }
    let s2 := if s1.isMoving ∧ s1.pendingMove ≠ 0 then updatePosition trig bsys s1 else s1
    { s2 with currentAction := some name }

/-- `move(direction)`: guarded on the model being loaded; record the pending
direction and update the position only when already in a moving state. -/
def move (trig : SinCos) (bsys : BuildingSystem) (direction : ℚ)
    (s : PlayerCharacter) : PlayerCharacter :=
  if s.modelLoaded = false then s
  else
    let s1 := { s with pendingMove := direction }
    if s1.isMoving then updatePosition trig bsys s1 else s1

/-- `rotate(direction)`: guarded on the model being loaded. -/
def rotate (direction : ℚ) (s : PlayerCharacter) : PlayerCharacter :=
  if s.modelLoaded = false then s
  else { s with rotY := s.rotY + direction * rotateSpeed }

/-- `jump()`: guarded only on `isJumping` (there is no model guard here);
set the airborne flag, reset the duration counter, transition the animation,
then initialize the vertical jump velocity. -/
def jump (trig : SinCos) (bsys : BuildingSystem) (s : PlayerCharacter) :
    PlayerCharacter :=
  if s.isJumping then s
  else
    let s1 := { s with isJumping := true, jumpDuration := 0 }
    let s2 := setAnimation trig bsys AnimName.jump s1
    { s2 with jumpVelY := jumpSpeed }

/-- The airborne part of `update(deltaTime)` before the landing check
(source lines: `this.jumpDuration++` through the collision branch):
increment the counter, apply gravity, integrate the vertical velocity and the
decaying forward motion, then either commit the new position or — on a
building collision — dampen and invert the vertical velocity, force the
landing height and terminate the jump. -/
def jumpIntegrate (trig : SinCos) (bsys : BuildingSystem) (s : PlayerCharacter) :
    PlayerCharacter :=
  let d := s.jumpDuration + 1
  let vy := s.jumpVelY - gravity
  let jumpProgress : ℚ := (d : ℚ) / (maxJumpDuration : ℚ)
  let fwd := jumpForwardSpeed * (1 - jumpProgress * (7 / 10))
  let mv := sphericalXZ trig fwd s.rotY
  let newPos : Vec3 := ⟨s.pos.x + mv.1, s.pos.y + vy, s.pos.z + mv.2⟩
  if bsys.checkCollision newPos playerRadius then
    let s1 := { s with jumpDuration := 0, jumpVelY := -vy * (1 / 2),
                       isJumping := false, pos := { s.pos with y := landingHeight } }
    setAnimation trig bsys (if s1.isMoving then AnimName.run else AnimName.idle) s1
  else
    { s with jumpDuration := d, jumpVelY := vy, pos := newPos }

/-- The final landing check of `update(deltaTime)`: if the position dropped
to the landing height or the counter reached the maximum duration, snap the
height, clear the airborne state and duration, and transition the animation. -/
def jumpLandCheck (trig : SinCos) (bsys : BuildingSystem) (s : PlayerCharacter) :
    PlayerCharacter :=
  if s.pos.y ≤ landingHeight ∨ maxJumpDuration ≤ s.jumpDuration then
    let s1 := { s with pos := { s.pos with y := landingHeight },
                       isJumping := false, jumpDuration := 0 }
    setAnimation trig bsys (if s1.isMoving then AnimName.run else AnimName.idle) s1
  else s

/-- `update(deltaTime)`: the animation-mixer advance is rendering-side; all
simulation state changes happen only while airborne.  (`deltaTime` feeds only
the mixer, so it is not a parameter here.) -/
def update (trig : SinCos) (bsys : BuildingSystem) (s : PlayerCharacter) :
    PlayerCharacter :=
  if s.isJumping then jumpLandCheck trig bsys (jumpIntegrate trig bsys s) else s

end PlayerCharacter

/-- The loop offsets `-2, ..., +2` of the streamers' 5×5 windows. -/
def windowOffsets : List ℤ := [-2, -1, 0, 1, 2]

/-- The 5×5 window of cells the streamers visit around a center cell, in the
source's loop order (`x` outer from `-2` to `+2`, `z` inner). -/
def windowCells (g : Cell) : List Cell :=
  windowOffsets.flatMap fun dx =>
    windowOffsets.map fun dz => (g.1 + dx, g.2 + dz)

namespace BuildingSystem

/-- `createBuilding(x, z)`: `null` when the models have not loaded, otherwise
pick a model index, a quarter-turn rotation, a jittered scale and an in-cell
offset from consecutive `Math.random()` draws and build the entry (building
mesh and collision box share position and rotation; the collision box is a
square box of side `finalScale * 0.8`). -/
def createBuilding (x z : ℤ) (rng : Rng) (modelsLoaded : Bool) :
    Option Building × Rng :=
  if modelsLoaded = false then (none, rng)
  else
    let r1 := rng.next
    let buildingIndex : ℕ := (⌊r1.1 * 2⌋).toNat
    let r2 := r1.2.next
    let rotQuarters : ℕ := (⌊r2.1 * 4⌋).toNat
    let r3 := r2.2.next
    let scaleVar := 9 / 10 + r3.1 * (1 / 5)
    let finalScale := 25 * scaleVar
    let r4 := r3.2.next
    let offsetX := (r4.1 - 1 / 2) * (gridSize - buildingSpacing)
    let r5 := r4.2.next
    let offsetZ := (r5.1 - 1 / 2) * (gridSize - buildingSpacing)
    let buildingHeight : ℚ := if buildingIndex = 1 then 34 / 5 else 647 / 100
    let boxSize := finalScale * (4 / 5)
    let boxHeight := if buildingIndex = 1 then boxSize * (7 / 5) else boxSize * (6 / 5)
    (some { centerX := (x : ℚ) * gridSize + offsetX
            centerY := buildingHeight
            centerZ := (z : ℚ) * gridSize + offsetZ
            width := boxSize
            boxHeight := boxHeight
            rotQuarters := rotQuarters
            buildingIndex := buildingIndex }, r5.2)

/-- The player's grid cell: `Math.floor(position / gridSize)` per axis. -/
def gridCellOf (p : Vec3) : Cell :=
  (⌊p.x / gridSize⌋, ⌊p.z / gridSize⌋)

/-- The body of the spawn loop for one cell: if the cell is neither processed
nor active, mark it processed, draw the spawn chance, and — outside the
spawn-exclusion zone around the origin — try to create the building.  The
source's exclusion test is `Math.sqrt(x*x + z*z) > 0.3`; we compare squares
(`x*x + z*z > 0.09`), which is exactly equivalent for a nonnegative radicand
and positive bound. -/
def processCell (s : BuildingSystem) (c : Cell) : BuildingSystem :=
  if c ∈ s.loadedCells ∨ c ∈ s.buildings.map Prod.fst then s
  else
    let s1 : BuildingSystem := { s with loadedCells := c :: s.loadedCells }
    let r1 := s1.rng.next
    if r1.1 < buildingChance then
      if (9 / 100 : ℚ) < ((c.1 : ℚ) * (c.1 : ℚ) + (c.2 : ℚ) * (c.2 : ℚ)) then
        match createBuilding c.1 c.2 r1.2 s1.modelsLoaded with
        | (some b, rng') => { s1 with buildings := s1.buildings ++ [(c, b)], rng := rng' }
        | (none, rng') => { s1 with rng := rng' }
      else { s1 with rng := r1.2 }
    else { s1 with rng := r1.2 }

/-- The eviction predicate (kept entries): the source removes an entry when
`Math.abs(x - gridX) > 3 || Math.abs(z - gridZ) > 3`; an entry is kept when
both coordinates are within Chebyshev distance 3. -/
def chebKeep (g k : Cell) : Bool :=
  decide (|k.1 - g.1| ≤ 3) && decide (|k.2 - g.2| ≤ 3)

/-- `BuildingSystem.update(playerPosition)`: run the spawn loop over the 5×5
window around the player's cell, then evict active entries beyond Chebyshev
grid-distance 3 (deleting entries while iterating a JS `Map` visits every
entry exactly once, so the net effect is a filter). -/
def update (s : BuildingSystem) (p : Vec3) : BuildingSystem :=
  let g := gridCellOf p
  let s1 := (windowCells g).foldl processCell s
  { s1 with buildings := s1.buildings.filter fun kb => chebKeep g kb.1 }

end BuildingSystem

namespace InfiniteGround

/-- `this.tileSize = 40`. -/
def tileSize : ℚ := 40

/-- `createTile(x, z)` positions the tile mesh at `(x*tileSize, 0, z*tileSize)`;
the mesh itself is rendering-side, so a tile is modelled by that position. -/
def createTile (c : Cell) : Vec3 :=
  ⟨(c.1 : ℚ) * tileSize, 0, (c.2 : ℚ) * tileSize⟩

/-- The player's tile cell: `Math.floor(position / tileSize)` per axis. -/
def tileCellOf (p : Vec3) : Cell :=
  (⌊p.x / tileSize⌋, ⌊p.z / tileSize⌋)

/-- The body of the tile creation loop for one window cell: create the tile
only when its key is not yet present. -/
def addTile (tiles : List (Cell × Vec3)) (c : Cell) : List (Cell × Vec3) :=
  if c ∈ tiles.map Prod.fst then tiles else tiles ++ [(c, createTile c)]

/-- `InfiniteGround.update(playerPosition)` acting on `this.tiles`: create the
missing tiles of the 5×5 window around the player's cell, then remove tiles
beyond Chebyshev grid-distance 3 (again a filter, as for the buildings). -/
def update (tiles : List (Cell × Vec3)) (p : Vec3) : List (Cell × Vec3) :=
  let g := tileCellOf p
  let t1 := (windowCells g).foldl addTile tiles
  t1.filter fun kt => BuildingSystem.chebKeep g kt.1

end InfiniteGround

namespace CameraController

/-- `this.offset = (0, 3, 8)`; assigned in the constructor and never
reassigned (only `currentOffset` is smoothed). -/
def offset : Vec3 := ⟨0, 3, 8⟩

/-- `this.maxOffset = (0, 5, 12)`. -/
def maxOffset : Vec3 := ⟨0, 5, 12⟩

/-- `this.baseHeight = 2`. -/
def baseHeight : ℚ := 2

/-- The candidate offsets tried by `findSafeCameraPosition`, in priority
order. -/
def positions : List Vec3 :=
  [offset, ⟨0, 4, 10⟩, ⟨0, 5, 12⟩, ⟨0, 3, 6⟩, ⟨0, 2, 4⟩]

/-- The world position tested for a candidate offset: the target position
with its height pinned to `baseHeight`, plus the offset. -/
def testPosition (targetPos : Vec3) (o : Vec3) : Vec3 :=
  ⟨targetPos.x + o.x, baseHeight + o.y, targetPos.z + o.z⟩

/-- `findSafeCameraPosition()`: try the candidate offsets in order and return
the first one whose test position is unobstructed; if every candidate is
obstructed, return `maxOffset`.  The obstruction test (`checkCameraCollision`,
a `THREE.Raycaster` cast against the active collision boxes) is an external
ray-casting collaborator, passed in as the predicate `obstructed`. -/
def findSafeCameraPosition (obstructed : Vec3 → Bool) (targetPos : Vec3) : Vec3 :=
  match positions.find? (fun o => !obstructed (testPosition targetPos o)) with
  | some o => o
  | none => maxOffset

end CameraController

/-- The `InputController` instance state: the five key flags plus the
edge-trigger latch for jumping. -/
structure InputController where
  forward : Bool
  backward : Bool
  left : Bool
  right : Bool
  jumpKey : Bool
  jumpPressed : Bool
  deriving DecidableEq, Repr

namespace InputController

/-- `InputController.update(player)`: apply held movement and rotation keys,
fire the edge-triggered jump, then derive the animation target when not
airborne (`run` for forward, else `walk` for backward, else `idle`). -/
def update (trig : SinCos) (bsys : BuildingSystem) (ic : InputController)
    (p : PlayerCharacter) : InputController × PlayerCharacter :=
  let p1 := if ic.forward then p.move trig bsys 1 else p
  let p2 := if ic.backward then p1.move trig bsys (-1) else p1
  let p3 := if ic.left then p2.rotate 1 else p2
  let p4 := if ic.right then p3.rotate (-1) else p3
  let fire := ic.jumpKey && ic.jumpPressed && !p4.isJumping
  let p5 := if fire then p4.jump trig bsys else p4
  let ic1 := if fire then { ic with jumpPressed := false } else ic
  let p6 :=
    if p5.isJumping = false then
      p5.setAnimation trig bsys
        (if ic.forward then AnimName.run
         else if ic.backward then AnimName.walk
         else AnimName.idle)
    else p5
  (ic1, p6)

end InputController

/-- Trig oracle agreeing with `(Math.sin, Math.cos)` at angle `0` — the only
angle consulted by scenarios in which the player never rotates. -/
def trigZero : SinCos := fun _ => (0, 1)

/-- A building system with no active buildings and no processed cells, with
the building models not yet loaded (the state right after the constructor). -/
def emptyBuildings : BuildingSystem :=
  { buildings := [], loadedCells := [], modelsLoaded := false,
    rng := { stream := fun _ => 1 / 2, idx := 0 } }

/-- The player state right after `load()` resolves: model and clips present,
idle action playing, at the spawn position `(0, 2, 0)` with yaw `0`. -/
def loadedIdlePlayer : PlayerCharacter :=
  { modelLoaded := true, animationsLoaded := true,
    currentAction := some AnimName.idle,
    pos := ⟨0, 2, 0⟩, rotY := 0, isMoving := false, isJumping := false,
    pendingMove := 0, jumpVelY := 0, jumpDuration := 0 }

/-- The player state before `load()` resolves (`this.model === null`): no
clips, no current action, constructor field values. -/
def freshPlayer : PlayerCharacter :=
  { modelLoaded := false, animationsLoaded := false, currentAction := none,
    pos := ⟨0, 2, 0⟩, rotY := 0, isMoving := false, isJumping := false,
    pendingMove := 0, jumpVelY := 0, jumpDuration := 0 }

/-- Input state while only the forward key (`W`) is held. -/
def forwardKeys : InputController :=
  { forward := true, backward := false, left := false, right := false,
    jumpKey := false, jumpPressed := false }

/-- One frame of the forward-run scenario: the animate loop calls
`inputController.update(player)` then `player.update(deltaTime)` (the other
systems do not touch the player). -/
def scenarioTick (x : InputController × PlayerCharacter) :
    InputController × PlayerCharacter :=
  let y := InputController.update trigZero emptyBuildings x.1 x.2
  (y.1, PlayerCharacter.update trigZero emptyBuildings y.2)

/-- An airborne player one tick before the maximum jump duration, well above
the landing height (reached by jumping and ticking; the exact height is
irrelevant to the landing logic). -/
def lateJumpPlayer : PlayerCharacter :=
  { loadedIdlePlayer with
    currentAction := some AnimName.jump, isJumping := true,
    pos := ⟨0, 10, 0⟩, jumpVelY := 19 / 100, jumpDuration := 89 }

/-- A concrete building used by boundary witnesses: variant 0, collision box
of width 10, centered at the origin. -/
def demoBuilding : Building :=
  { centerX := 0, centerY := 647 / 100, centerZ := 0, width := 10,
    boxHeight := 12, rotQuarters := 0, buildingIndex := 0 }

/-- A building system whose active set is exactly `demoBuilding`. -/
def demoSystem : BuildingSystem :=
  { emptyBuildings with buildings := [((0, 0), demoBuilding)], modelsLoaded := true }

/-- A building system with one processed cell `(0,0)` and no active building
(its spawn roll failed or was evicted). -/
def processedOriginSystem : BuildingSystem :=
  { emptyBuildings with loadedCells := [(0, 0)] }

/-- The forward-run scenario state after 10 consecutive ticks from the
loaded idle player at the origin cell with the forward key held. -/
def scenarioAfterTen : InputController × PlayerCharacter :=
  scenarioTick (scenarioTick (scenarioTick (scenarioTick (scenarioTick
    (scenarioTick (scenarioTick (scenarioTick (scenarioTick (scenarioTick
      (forwardKeys, loadedIdlePlayer))))))))))


/-! ## Theorems -/

/-- The square-compare form used in `collidesWith` agrees exactly with the
source's `Math.sqrt(dx*dx + dz*dz) < threshold` comparison. -/
theorem collidesWith_iff_sqrt (p : Vec3) (r : ℚ) (b : Building) :
    BuildingSystem.collidesWith p r b = true ↔
      Real.sqrt (((p.x - b.centerX : ℚ) : ℝ) ^ 2 + ((p.z - b.centerZ : ℚ) : ℝ) ^ 2)
        < ((BuildingSystem.collisionThreshold b r : ℚ) : ℝ) := by
  unfold BuildingSystem.collidesWith
  simp only [Bool.and_eq_true, decide_eq_true_eq]
  constructor
  · rintro ⟨h1, h2⟩
    have h1' : (0 : ℝ) < ((BuildingSystem.collisionThreshold b r : ℚ) : ℝ) := by
      exact_mod_cast h1
    rw [Real.sqrt_lt' h1']
    have h2' : ((p.x - b.centerX : ℚ) : ℝ) * ((p.x - b.centerX : ℚ) : ℝ)
        + ((p.z - b.centerZ : ℚ) : ℝ) * ((p.z - b.centerZ : ℚ) : ℝ)
        < ((BuildingSystem.collisionThreshold b r : ℚ) : ℝ)
          * ((BuildingSystem.collisionThreshold b r : ℚ) : ℝ) := by
      exact_mod_cast h2
    nlinarith [h2']
  · intro h
    have h0 : (0 : ℝ) ≤ Real.sqrt (((p.x - b.centerX : ℚ) : ℝ) ^ 2
        + ((p.z - b.centerZ : ℚ) : ℝ) ^ 2) := Real.sqrt_nonneg _
    have h1' : (0 : ℝ) < ((BuildingSystem.collisionThreshold b r : ℚ) : ℝ) :=
      lt_of_le_of_lt h0 h
    have h1 : (0 : ℚ) < BuildingSystem.collisionThreshold b r := by exact_mod_cast h1'
    refine ⟨h1, ?_⟩
    rw [Real.sqrt_lt' h1'] at h
    have h2' : ((p.x - b.centerX : ℚ) : ℝ) * ((p.x - b.centerX : ℚ) : ℝ)
        + ((p.z - b.centerZ : ℚ) : ℝ) * ((p.z - b.centerZ : ℚ) : ℝ)
        < ((BuildingSystem.collisionThreshold b r : ℚ) : ℝ)
          * ((BuildingSystem.collisionThreshold b r : ℚ) : ℝ) := by nlinarith [h]
    exact_mod_cast h2'

/-- `collidesWith` never reads the rotation stored on a building. -/
theorem collidesWith_rot_irrel (p : Vec3) (r : ℚ) (b : Building) (k : ℕ) :
    BuildingSystem.collidesWith p r { b with rotQuarters := k }
      = BuildingSystem.collidesWith p r b := rfl

/-- Claim C2: `checkCollision(point, radius)` returns true iff some active
building's planar (x,z) Euclidean distance to the point is strictly below
`buildingHalfWidth + radius + buffer` (buffer `0.5` for variant 1, `0.02` for
variant 0); the test is cylindrical — the stored rotation never affects the
result — and a point whose planar distance is the threshold minus a positive
`ε` is reported colliding while threshold plus `ε` is not. -/
theorem c2_checkCollision_characterization (bsys : BuildingSystem) (p : Vec3)
    (r : ℚ) (rots : Building → ℕ) (b : Building) (h : ℚ) (ε : ℚ)
    (hε : 0 < ε) (hεthr : ε ≤ BuildingSystem.collisionThreshold b r) :
    (bsys.checkCollision p r = true ↔
      ∃ kb ∈ bsys.buildings,
        Real.sqrt (((p.x - kb.2.centerX : ℚ) : ℝ) ^ 2 + ((p.z - kb.2.centerZ : ℚ) : ℝ) ^ 2)
          < ((kb.2.width / 2 + r + BuildingSystem.collisionBuffer kb.2.buildingIndex : ℚ) : ℝ))
    ∧ BuildingSystem.checkCollision
        { bsys with buildings := bsys.buildings.map fun kb => (kb.1, { kb.2 with rotQuarters := rots kb.2 }) }
        p r = bsys.checkCollision p r
    ∧ BuildingSystem.checkCollision
        { emptyBuildings with buildings := [((0, 0), b)] }
        ⟨b.centerX + (BuildingSystem.collisionThreshold b r - ε), h, b.centerZ⟩ r = true
    ∧ BuildingSystem.checkCollision
        { emptyBuildings with buildings := [((0, 0), b)] }
        ⟨b.centerX + (BuildingSystem.collisionThreshold b r + ε), h, b.centerZ⟩ r = false := by
  refine ⟨?_, ?_, ?_, ?_⟩
  · unfold BuildingSystem.checkCollision
    rw [List.any_eq_true]
    constructor
    · rintro ⟨kb, hmem, hc⟩
      exact ⟨kb, hmem, (collidesWith_iff_sqrt p r kb.2).mp hc⟩
    · rintro ⟨kb, hmem, hc⟩
      exact ⟨kb, hmem, (collidesWith_iff_sqrt p r kb.2).mpr hc⟩
  · unfold BuildingSystem.checkCollision
    simp only [List.any_map]
    rfl
  · unfold BuildingSystem.checkCollision
    simp only [List.any_cons, List.any_nil, Bool.or_false]
    unfold BuildingSystem.collidesWith
    dsimp only
    simp only [Bool.and_eq_true, decide_eq_true_eq]
    constructor
    · linarith
    · nlinarith [hε, hεthr]
  · unfold BuildingSystem.checkCollision
    simp only [List.any_cons, List.any_nil, Bool.or_false]
    unfold BuildingSystem.collidesWith
    rw [← Bool.not_eq_true]
    dsimp only
    simp only [Bool.and_eq_true, decide_eq_true_eq, not_and, not_lt]
    intro h1
    nlinarith [hε, hεthr]

/-- Witness for C2 at a concrete system, building, height and `ε`. -/
theorem c2_checkCollision_characterization_witness :
    ((0 : ℚ) < 1 / 10 ∧
      (1 / 10 : ℚ) ≤ BuildingSystem.collisionThreshold demoBuilding (3 / 2)) ∧
    BuildingSystem.checkCollision
        { emptyBuildings with buildings := [((0, 0), demoBuilding)] }
        ⟨demoBuilding.centerX + (BuildingSystem.collisionThreshold demoBuilding (3 / 2) - 1 / 10),
          2, demoBuilding.centerZ⟩ (3 / 2) = true := by
  have hε : (0 : ℚ) < 1 / 10 := by norm_num
  have hthr : (1 / 10 : ℚ) ≤ BuildingSystem.collisionThreshold demoBuilding (3 / 2) := by
    norm_num [BuildingSystem.collisionThreshold, BuildingSystem.collisionBuffer, demoBuilding]
  exact ⟨⟨hε, hthr⟩,
    (c2_checkCollision_characterization demoSystem ⟨0, 0, 0⟩ (3 / 2) (fun _ => 0)
      demoBuilding 2 (1 / 10) hε hthr).2.2.1⟩

/-- Claim C10: `checkCollision` is independent of the queried point's
vertical coordinate (and of the collision boxes' heights): a jumping player
at any altitude gets the same collision answer as a grounded one. -/
theorem c10_checkCollision_height_independent (bsys : BuildingSystem)
    (x z r h1 h2 : ℚ) (hs : Building → ℚ) :
    bsys.checkCollision ⟨x, h1, z⟩ r = bsys.checkCollision ⟨x, h2, z⟩ r ∧
    BuildingSystem.checkCollision
      { bsys with buildings := bsys.buildings.map fun kb => (kb.1, { kb.2 with boxHeight := hs kb.2 }) }
      ⟨x, h1, z⟩ r = bsys.checkCollision ⟨x, h1, z⟩ r := by
  constructor
  · rfl
  · unfold BuildingSystem.checkCollision
    simp only [List.any_map]
    rfl

/-- Claim C9: when every one of the five candidate offsets is obstructed,
the raw selected offset (before any smoothing) is exactly the farthest
fallback `maxOffset = (0, 5, 12)`. -/
theorem c9_all_obstructed_max_offset (obstructed : Vec3 → Bool) (targetPos : Vec3)
    (h : ∀ o ∈ CameraController.positions,
      obstructed (CameraController.testPosition targetPos o) = true) :
    CameraController.findSafeCameraPosition obstructed targetPos
      = CameraController.maxOffset := by
  unfold CameraController.findSafeCameraPosition
  have hn : CameraController.positions.find?
      (fun o => !obstructed (CameraController.testPosition targetPos o)) = none :=
    List.find?_eq_none.mpr fun o ho => by simp [h o ho]
  rw [hn]

/-- Witness for C9: a ray test that reports every position obstructed. -/
theorem c9_all_obstructed_max_offset_witness :
    (∀ o ∈ CameraController.positions,
      (fun _ : Vec3 => true) (CameraController.testPosition ⟨0, 2, 0⟩ o) = true) ∧
    CameraController.findSafeCameraPosition (fun _ => true) ⟨0, 2, 0⟩
      = CameraController.maxOffset :=
  ⟨fun _ _ => rfl,
    c9_all_obstructed_max_offset (fun _ => true) ⟨0, 2, 0⟩ fun _ _ => rfl⟩

namespace PlayerCharacter

/-- `updatePosition` can only change the horizontal position: the height and
all jump/animation bookkeeping are untouched. -/
theorem updatePosition_pres (trig : SinCos) (bsys : BuildingSystem)
    (s : PlayerCharacter) :
    (updatePosition trig bsys s).pos.y = s.pos.y ∧
    (updatePosition trig bsys s).isJumping = s.isJumping ∧
    (updatePosition trig bsys s).jumpDuration = s.jumpDuration ∧
    (updatePosition trig bsys s).jumpVelY = s.jumpVelY ∧
    (updatePosition trig bsys s).isMoving = s.isMoving ∧
    (updatePosition trig bsys s).currentAction = s.currentAction := by
  unfold updatePosition
  dsimp only
  split <;> split <;> simp

/-- `setAnimation` never changes the height, the airborne flag, the jump
counter or the jump velocity. -/
theorem setAnimation_pres (trig : SinCos) (bsys : BuildingSystem)
    (name : AnimName) (s : PlayerCharacter) :
    (setAnimation trig bsys name s).pos.y = s.pos.y ∧
    (setAnimation trig bsys name s).isJumping = s.isJumping ∧
    (setAnimation trig bsys name s).jumpDuration = s.jumpDuration ∧
    (setAnimation trig bsys name s).jumpVelY = s.jumpVelY := by
  unfold setAnimation
  split
  · simp
  · split
    · simp
    · dsimp only
      split
      · have h := updatePosition_pres trig bsys
          { s with isMoving := decide (name = AnimName.run ∨ name = AnimName.walk) }
        simp only at h ⊢
        exact ⟨h.1, h.2.1, h.2.2.1, h.2.2.2.1⟩
      · simp

end PlayerCharacter

/-- In `jumpIntegrate` either the no-collision branch commits the integrated
position (airborne flag unchanged, counter incremented), or the collision
branch ends the jump with the height forced to the landing height. -/
theorem jumpIntegrate_cases (trig : SinCos) (bsys : BuildingSystem)
    (s : PlayerCharacter) :
    ((PlayerCharacter.jumpIntegrate trig bsys s).isJumping = s.isJumping ∧
      (PlayerCharacter.jumpIntegrate trig bsys s).jumpDuration = s.jumpDuration + 1) ∨
    ((PlayerCharacter.jumpIntegrate trig bsys s).isJumping = false ∧
      (PlayerCharacter.jumpIntegrate trig bsys s).pos.y = PlayerCharacter.landingHeight ∧
      (PlayerCharacter.jumpIntegrate trig bsys s).jumpDuration = 0) := by
  unfold PlayerCharacter.jumpIntegrate
  dsimp only
  split
  · right
    exact ⟨(PlayerCharacter.setAnimation_pres _ _ _ _).2.1,
      (PlayerCharacter.setAnimation_pres _ _ _ _).1,
      (PlayerCharacter.setAnimation_pres _ _ _ _).2.2.1⟩
  · left
    exact ⟨rfl, rfl⟩

/-- `jumpLandCheck` either fires — clearing the airborne state, snapping the
height and resetting the counter — or leaves the state untouched, exactly
according to its landing condition. -/
theorem jumpLandCheck_cases (trig : SinCos) (bsys : BuildingSystem)
    (t : PlayerCharacter) :
    ((t.pos.y ≤ PlayerCharacter.landingHeight ∨
        PlayerCharacter.maxJumpDuration ≤ t.jumpDuration) ∧
      (PlayerCharacter.jumpLandCheck trig bsys t).isJumping = false ∧
      (PlayerCharacter.jumpLandCheck trig bsys t).pos.y = PlayerCharacter.landingHeight ∧
      (PlayerCharacter.jumpLandCheck trig bsys t).jumpDuration = 0) ∨
    (¬ (t.pos.y ≤ PlayerCharacter.landingHeight ∨
        PlayerCharacter.maxJumpDuration ≤ t.jumpDuration) ∧
      PlayerCharacter.jumpLandCheck trig bsys t = t) := by
  by_cases hcond : t.pos.y ≤ PlayerCharacter.landingHeight ∨
      PlayerCharacter.maxJumpDuration ≤ t.jumpDuration
  · left
    unfold PlayerCharacter.jumpLandCheck
    rw [if_pos hcond]
    exact ⟨hcond, (PlayerCharacter.setAnimation_pres _ _ _ _).2.1,
      (PlayerCharacter.setAnimation_pres _ _ _ _).1,
      (PlayerCharacter.setAnimation_pres _ _ _ _).2.2.1⟩
  · right
    unfold PlayerCharacter.jumpLandCheck
    rw [if_neg hcond]
    exact ⟨hcond, rfl⟩

/-- Claim C1 (amended): while airborne, a tick ends the jump exactly when,
after that tick's integration (with a building collision forcing the landing
height), the position height is at most `landingHeight` or the incremented
counter has reached `maxJumpDuration = 90`; on the ending tick the height is
set exactly to `landingHeight = 2` and the duration counter resets to `0`
(the vertical velocity is NOT reset); the counter never exceeds 90. -/
theorem c1_jump_termination (trig : SinCos) (bsys : BuildingSystem)
    (s : PlayerCharacter) (hj : s.isJumping = true) :
    ((PlayerCharacter.update trig bsys s).isJumping = false ↔
      ((PlayerCharacter.jumpIntegrate trig bsys s).pos.y ≤ PlayerCharacter.landingHeight ∨
        PlayerCharacter.maxJumpDuration ≤ (PlayerCharacter.jumpIntegrate trig bsys s).jumpDuration)) ∧
    ((PlayerCharacter.update trig bsys s).isJumping = false →
      (PlayerCharacter.update trig bsys s).pos.y = PlayerCharacter.landingHeight ∧
      (PlayerCharacter.update trig bsys s).jumpDuration = 0) ∧
    (PlayerCharacter.update trig bsys s).jumpDuration ≤ PlayerCharacter.maxJumpDuration := by
  have hupd : PlayerCharacter.update trig bsys s
      = PlayerCharacter.jumpLandCheck trig bsys (PlayerCharacter.jumpIntegrate trig bsys s) := by
    unfold PlayerCharacter.update
    rw [hj]
    simp
  rcases jumpLandCheck_cases trig bsys (PlayerCharacter.jumpIntegrate trig bsys s) with
    ⟨hcond, h1, h2, h3⟩ | ⟨hcond, heq⟩
  · rw [hupd]
    refine ⟨?_, fun _ => ⟨h2, h3⟩, ?_⟩
    · simp [h1, hcond]
    · rw [h3]
      exact Nat.zero_le _
  · have hair : (PlayerCharacter.jumpIntegrate trig bsys s).isJumping = true := by
      rcases jumpIntegrate_cases trig bsys s with h | h
      · rw [h.1, hj]
      · exact absurd (Or.inl (le_of_eq h.2.1)) hcond
    rw [hupd, heq]
    refine ⟨?_, ?_, ?_⟩
    · constructor
      · intro hf
        rw [hair] at hf
        exact absurd hf (by simp)
      · intro hc
        exact absurd hc hcond
    · intro hf
      rw [hair] at hf
      exact absurd hf (by simp)
    · have hlt : ¬ PlayerCharacter.maxJumpDuration
          ≤ (PlayerCharacter.jumpIntegrate trig bsys s).jumpDuration :=
        fun h => hcond (Or.inr h)
      omega
/-- Witness for C1 (amended) at an airborne player one tick before the
maximum duration. -/
theorem c1_jump_termination_witness :
    lateJumpPlayer.isJumping = true ∧
    (((PlayerCharacter.update trigZero emptyBuildings lateJumpPlayer).isJumping = false ↔
      ((PlayerCharacter.jumpIntegrate trigZero emptyBuildings lateJumpPlayer).pos.y ≤ PlayerCharacter.landingHeight ∨
        PlayerCharacter.maxJumpDuration ≤ (PlayerCharacter.jumpIntegrate trigZero emptyBuildings lateJumpPlayer).jumpDuration)) ∧
    ((PlayerCharacter.update trigZero emptyBuildings lateJumpPlayer).isJumping = false →
      (PlayerCharacter.update trigZero emptyBuildings lateJumpPlayer).pos.y = PlayerCharacter.landingHeight ∧
      (PlayerCharacter.update trigZero emptyBuildings lateJumpPlayer).jumpDuration = 0) ∧
    (PlayerCharacter.update trigZero emptyBuildings lateJumpPlayer).jumpDuration ≤ PlayerCharacter.maxJumpDuration) :=
  ⟨rfl, c1_jump_termination trigZero emptyBuildings lateJumpPlayer rfl⟩

/-- Counterexample to C1 as stated: on the ending tick of a maximal-duration
jump the airborne flag clears and the height snaps to the landing height, but
the stored vertical jump velocity is NOT reset to zero (it keeps its last
integrated value `0.19 - 0.006 = 0.184`). -/
theorem c1_velocity_not_reset_counterexample :
    (PlayerCharacter.update trigZero emptyBuildings lateJumpPlayer).isJumping = false ∧
    (PlayerCharacter.update trigZero emptyBuildings lateJumpPlayer).pos.y
      = PlayerCharacter.landingHeight ∧
    (PlayerCharacter.update trigZero emptyBuildings lateJumpPlayer).jumpVelY = 23 / 125 ∧
    (PlayerCharacter.update trigZero emptyBuildings lateJumpPlayer).jumpVelY ≠ 0 := by
  norm_num [PlayerCharacter.update, PlayerCharacter.jumpIntegrate,
    PlayerCharacter.jumpLandCheck, PlayerCharacter.setAnimation,
    PlayerCharacter.updatePosition, PlayerCharacter.landingHeight,
    PlayerCharacter.maxJumpDuration, PlayerCharacter.gravity,
    PlayerCharacter.jumpForwardSpeed, PlayerCharacter.playerRadius,
    lateJumpPlayer, loadedIdlePlayer, trigZero, emptyBuildings, sphericalXZ,
    BuildingSystem.checkCollision]
  simp

/-- Claim C6: calling `jump()` while grounded (on a loaded player whose
current action is not already the jump clip) sets the airborne flag, the
initial vertical velocity `jumpSpeed = 0.19`, resets the elapsed counter and
immediately transitions the animation to Jump; calling `jump()` again while
airborne is a no-op. -/
theorem c6_jump_grounded (trig : SinCos) (bsys : BuildingSystem)
    (s : PlayerCharacter) (c : AnimName) (hj : s.isJumping = false)
    (ha : s.animationsLoaded = true) (hc : s.currentAction = some c)
    (hne : c ≠ AnimName.jump) :
    (PlayerCharacter.jump trig bsys s).isJumping = true ∧
    (PlayerCharacter.jump trig bsys s).jumpVelY = PlayerCharacter.jumpSpeed ∧
    (PlayerCharacter.jump trig bsys s).jumpDuration = 0 ∧
    (PlayerCharacter.jump trig bsys s).currentAction = some AnimName.jump ∧
    PlayerCharacter.jump trig bsys (PlayerCharacter.jump trig bsys s)
      = PlayerCharacter.jump trig bsys s := by
  have hstep : PlayerCharacter.jump trig bsys s
      = { s with isJumping := true, jumpDuration := 0, isMoving := false,
                 currentAction := some AnimName.jump,
                 jumpVelY := PlayerCharacter.jumpSpeed } := by
    unfold PlayerCharacter.jump PlayerCharacter.setAnimation
    simp [hj, ha, hc, hne]
  refine ⟨by rw [hstep], by rw [hstep], by rw [hstep], by rw [hstep], ?_⟩
  rw [hstep]
  unfold PlayerCharacter.jump
  simp

/-- Witness for C6 at the freshly loaded idle player. -/
theorem c6_jump_grounded_witness :
    (loadedIdlePlayer.isJumping = false ∧ loadedIdlePlayer.animationsLoaded = true ∧
      loadedIdlePlayer.currentAction = some AnimName.idle ∧
      AnimName.idle ≠ AnimName.jump) ∧
    ((PlayerCharacter.jump trigZero emptyBuildings loadedIdlePlayer).isJumping = true ∧
      (PlayerCharacter.jump trigZero emptyBuildings loadedIdlePlayer).jumpVelY
        = PlayerCharacter.jumpSpeed ∧
      (PlayerCharacter.jump trigZero emptyBuildings loadedIdlePlayer).jumpDuration = 0 ∧
      (PlayerCharacter.jump trigZero emptyBuildings loadedIdlePlayer).currentAction
        = some AnimName.jump ∧
      PlayerCharacter.jump trigZero emptyBuildings
          (PlayerCharacter.jump trigZero emptyBuildings loadedIdlePlayer)
        = PlayerCharacter.jump trigZero emptyBuildings loadedIdlePlayer) :=
  ⟨⟨rfl, rfl, rfl, by decide⟩,
    c6_jump_grounded trigZero emptyBuildings loadedIdlePlayer AnimName.idle rfl rfl rfl
      (by decide)⟩

/-- Claim C7 (amended): before the model loads, `move`, `rotate` and (while
not airborne) `update` are silent no-ops; `jump()` however carries no model
guard — it still sets the airborne flag, resets the counter and sets the
vertical velocity (only the animation transition is suppressed, there being
no current action yet). -/
theorem c7_not_ready_noop (trig : SinCos) (bsys : BuildingSystem) (d : ℚ)
    (s : PlayerCharacter) (hm : s.modelLoaded = false)
    (hj : s.isJumping = false) (hc : s.currentAction = none) :
    PlayerCharacter.move trig bsys d s = s ∧
    PlayerCharacter.rotate d s = s ∧
    PlayerCharacter.update trig bsys s = s ∧
    PlayerCharacter.jump trig bsys s
      = { s with isJumping := true, jumpDuration := 0,
                 jumpVelY := PlayerCharacter.jumpSpeed } := by
  refine ⟨?_, ?_, ?_, ?_⟩
  · unfold PlayerCharacter.move
    simp [hm]
  · unfold PlayerCharacter.rotate
    simp [hm]
  · unfold PlayerCharacter.update
    simp [hj]
  · unfold PlayerCharacter.jump PlayerCharacter.setAnimation
    simp [hj, hc]

/-- Witness for C7 (amended) at the pre-load player. -/
theorem c7_not_ready_noop_witness :
    (freshPlayer.modelLoaded = false ∧ freshPlayer.isJumping = false ∧
      freshPlayer.currentAction = none) ∧
    (PlayerCharacter.move trigZero emptyBuildings 1 freshPlayer = freshPlayer ∧
      PlayerCharacter.rotate 1 freshPlayer = freshPlayer ∧
      PlayerCharacter.update trigZero emptyBuildings freshPlayer = freshPlayer ∧
      PlayerCharacter.jump trigZero emptyBuildings freshPlayer
        = { freshPlayer with isJumping := true, jumpDuration := 0,
                             jumpVelY := PlayerCharacter.jumpSpeed }) :=
  ⟨⟨rfl, rfl, rfl⟩, c7_not_ready_noop trigZero emptyBuildings 1 freshPlayer rfl rfl rfl⟩

/-- Counterexample to C7 as stated: with no model loaded, `jump()` is not a
no-op — it flips the airborne flag. -/
theorem c7_jump_not_noop_counterexample :
    freshPlayer.modelLoaded = false ∧
    freshPlayer.isJumping = false ∧
    (PlayerCharacter.jump trigZero emptyBuildings freshPlayer).isJumping = true := by
  refine ⟨rfl, rfl, ?_⟩
  unfold PlayerCharacter.jump PlayerCharacter.setAnimation
  simp [freshPlayer]

/-- Counterexample to C8 as stated: after 10 forward ticks from the origin
the player's `position.z` is `+1.5`, not `≈ -1.5` — a full 3 units away from
the claimed value, beyond any floating-point tolerance. -/
theorem c8_forward_scenario_counterexample :
    scenarioAfterTen.2.pos.z = 3 / 2 ∧
    |scenarioAfterTen.2.pos.z - (-(3 / 2))| = 3 := by
  have hz : scenarioAfterTen.2.pos.z = 3 / 2 := by
    simp [scenarioAfterTen, scenarioTick, InputController.update,
      PlayerCharacter.move, PlayerCharacter.rotate, PlayerCharacter.jump,
      PlayerCharacter.setAnimation, PlayerCharacter.updatePosition,
      PlayerCharacter.update, sphericalXZ, trigZero, emptyBuildings,
      forwardKeys, loadedIdlePlayer, BuildingSystem.checkCollision,
      PlayerCharacter.moveSpeed, PlayerCharacter.playerRadius]
    try norm_num
  refine ⟨hz, ?_⟩
  rw [hz]
  norm_num

/-- Claim C8 (amended): starting at the origin with yaw 0 and the forward
key held, 10 consecutive ticks at `moveSpeed = 0.15` with no buildings in
the path put the player at `position.z = +1.5` exactly (in exact-rational
arithmetic; the sign is toward `+z`, fixed by `setFromSpherical` at yaw 0),
with the animation state equal to Run. -/
theorem c8_forward_scenario (n : ℕ) (hn : n = 10) :
    scenarioAfterTen.2.pos.z = (n : ℚ) * PlayerCharacter.moveSpeed ∧
    scenarioAfterTen.2.currentAction = some AnimName.run := by
  subst hn
  constructor
  · have hz : scenarioAfterTen.2.pos.z = 3 / 2 := by
      simp [scenarioAfterTen, scenarioTick, InputController.update,
        PlayerCharacter.move, PlayerCharacter.rotate, PlayerCharacter.jump,
        PlayerCharacter.setAnimation, PlayerCharacter.updatePosition,
        PlayerCharacter.update, sphericalXZ, trigZero, emptyBuildings,
        forwardKeys, loadedIdlePlayer, BuildingSystem.checkCollision,
        PlayerCharacter.moveSpeed, PlayerCharacter.playerRadius]
      try norm_num
    rw [hz]
    norm_num [PlayerCharacter.moveSpeed]
  · simp [scenarioAfterTen, scenarioTick, InputController.update,
      PlayerCharacter.move, PlayerCharacter.rotate, PlayerCharacter.jump,
      PlayerCharacter.setAnimation, PlayerCharacter.updatePosition,
      PlayerCharacter.update, sphericalXZ, trigZero, emptyBuildings,
      forwardKeys, loadedIdlePlayer, BuildingSystem.checkCollision,
      PlayerCharacter.moveSpeed, PlayerCharacter.playerRadius]

/-- Witness for C8 (amended) at `n = 10`. -/
theorem c8_forward_scenario_witness :
    (10 : ℕ) = 10 ∧
    (scenarioAfterTen.2.pos.z = ((10 : ℕ) : ℚ) * PlayerCharacter.moveSpeed ∧
      scenarioAfterTen.2.currentAction = some AnimName.run) :=
  ⟨rfl, c8_forward_scenario 10 rfl⟩

/-- Membership in the 5×5 window is exactly per-axis distance at most 2. -/
theorem mem_windowCells {g c : Cell} :
    c ∈ windowCells g ↔
      g.1 - 2 ≤ c.1 ∧ c.1 ≤ g.1 + 2 ∧ g.2 - 2 ≤ c.2 ∧ c.2 ≤ g.2 + 2 := by
  obtain ⟨gx, gz⟩ := g
  obtain ⟨cx, cz⟩ := c
  simp only [windowCells, windowOffsets, List.mem_flatMap, List.mem_map,
    List.mem_cons, List.not_mem_nil, or_false, Prod.mk.injEq]
  constructor
  · rintro ⟨dx, hdx, dz, hdz, h1, h2⟩
    omega
  · rintro ⟨h1, h2, h3, h4⟩
    exact ⟨cx - gx, by omega, cz - gz, by omega, by omega, by omega⟩

/-- Window cells survive the eviction predicate (distance ≤ 2 < 3). -/
theorem chebKeep_of_window {g c : Cell} (h : c ∈ windowCells g) :
    BuildingSystem.chebKeep g c = true := by
  rw [mem_windowCells] at h
  unfold BuildingSystem.chebKeep
  rw [Bool.and_eq_true, decide_eq_true_eq, decide_eq_true_eq, abs_le, abs_le]
  omega

/-- What the eviction predicate keeps is within Chebyshev distance 3. -/
theorem chebKeep_bounds {g c : Cell} (h : BuildingSystem.chebKeep g c = true) :
    |c.1 - g.1| ≤ 3 ∧ |c.2 - g.2| ≤ 3 := by
  unfold BuildingSystem.chebKeep at h
  simpa only [Bool.and_eq_true, decide_eq_true_eq] using h

namespace BuildingSystem

/-- A cell already processed (or already active) is skipped untouched. -/
theorem processCell_skip (s : BuildingSystem) (c : Cell)
    (h : c ∈ s.loadedCells ∨ c ∈ s.buildings.map Prod.fst) :
    processCell s c = s := by
  unfold processCell
  rw [if_pos h]

/-- `processCell` leaves the processed set alone or conses the visited cell. -/
theorem processCell_loadedCells (s : BuildingSystem) (c : Cell) :
    (processCell s c).loadedCells = s.loadedCells ∨
    (processCell s c).loadedCells = c :: s.loadedCells := by
  unfold processCell
  split
  · exact Or.inl rfl
  · right
    dsimp only
    split
    · split
      · split <;> rfl
      · rfl
    · rfl

/-- `processCell` leaves the active set alone or appends one entry keyed by
the visited cell. -/
theorem processCell_buildings (s : BuildingSystem) (c : Cell) :
    (processCell s c).buildings = s.buildings ∨
    ∃ b, (processCell s c).buildings = s.buildings ++ [(c, b)] := by
  unfold processCell
  split
  · exact Or.inl rfl
  · dsimp only
    split
    · split
      · split
        · exact Or.inr ⟨_, rfl⟩
        · exact Or.inl rfl
      · exact Or.inl rfl
    · exact Or.inl rfl

/-- Processed-or-active membership is preserved by `processCell`. -/
theorem processCell_mem_pres (s : BuildingSystem) (c a : Cell)
    (h : a ∈ s.loadedCells ∨ a ∈ s.buildings.map Prod.fst) :
    a ∈ (processCell s c).loadedCells ∨
    a ∈ (processCell s c).buildings.map Prod.fst := by
  rcases h with h | h
  · rcases processCell_loadedCells s c with he | he <;> rw [he]
    · exact Or.inl h
    · exact Or.inl (List.mem_cons_of_mem _ h)
  · rcases processCell_buildings s c with he | ⟨b, he⟩ <;> rw [he]
    · exact Or.inr h
    · right
      rw [List.map_append]
      exact List.mem_append_left _ h

/-- After `processCell` visits a cell, that cell is processed or active. -/
theorem processCell_self (s : BuildingSystem) (c : Cell) :
    c ∈ (processCell s c).loadedCells ∨
    c ∈ (processCell s c).buildings.map Prod.fst := by
  by_cases h : c ∈ s.loadedCells ∨ c ∈ s.buildings.map Prod.fst
  · rw [processCell_skip s c h]
    exact h
  · left
    unfold processCell
    rw [if_neg h]
    dsimp only
    split
    · split
      · split <;> exact List.mem_cons_self _ _
      · exact List.mem_cons_self _ _
    · exact List.mem_cons_self _ _

/-- The processed set never shrinks under `processCell`. -/
theorem processCell_lc_mono (s : BuildingSystem) (c a : Cell)
    (h : a ∈ s.loadedCells) : a ∈ (processCell s c).loadedCells := by
  rcases processCell_loadedCells s c with he | he <;> rw [he]
  · exact h
  · exact List.mem_cons_of_mem _ h

/-- A processed cell with no active building never acquires one from
`processCell` (visiting any cell). -/
theorem processCell_not_bkey (s : BuildingSystem) (c a : Cell)
    (hlc : a ∈ s.loadedCells) (hnb : a ∉ s.buildings.map Prod.fst) :
    a ∉ (processCell s c).buildings.map Prod.fst := by
  by_cases hac : a = c
  · subst hac
    rw [processCell_skip s a (Or.inl hlc)]
    exact hnb
  · rcases processCell_buildings s c with he | ⟨b, he⟩ <;> rw [he]
    · exact hnb
    · rw [List.map_append]
      intro hmem
      rcases List.mem_append.mp hmem with h | h
      · exact hnb h
      · simp only [List.map_cons, List.map_nil, List.mem_singleton] at h
        exact hac h

/-- The processed set never shrinks across the whole spawn loop. -/
theorem foldl_processCell_lc_mono (L : List Cell) (s : BuildingSystem) (a : Cell)
    (h : a ∈ s.loadedCells) :
    a ∈ (L.foldl processCell s).loadedCells := by
  induction L generalizing s with
  | nil => exact h
  | cons c L ih => exact ih _ (processCell_lc_mono s c a h)

/-- Processed-or-active membership is preserved across the spawn loop. -/
theorem foldl_processCell_mem_pres (L : List Cell) (s : BuildingSystem) (a : Cell)
    (h : a ∈ s.loadedCells ∨ a ∈ s.buildings.map Prod.fst) :
    a ∈ (L.foldl processCell s).loadedCells ∨
    a ∈ (L.foldl processCell s).buildings.map Prod.fst := by
  induction L generalizing s with
  | nil => exact h
  | cons c L ih => exact ih _ (processCell_mem_pres s c a h)

/-- Every visited cell ends the spawn loop processed or active. -/
theorem foldl_processCell_covers (L : List Cell) (s : BuildingSystem) (a : Cell)
    (ha : a ∈ L) :
    a ∈ (L.foldl processCell s).loadedCells ∨
    a ∈ (L.foldl processCell s).buildings.map Prod.fst := by
  induction L generalizing s with
  | nil => cases ha
  | cons c L ih =>
    rcases List.mem_cons.mp ha with rfl | ha'
    · exact foldl_processCell_mem_pres L _ a (processCell_self s a)
    · exact ih _ ha'

/-- When every visited cell is already processed or active, the spawn loop
does nothing at all (no random draw is consumed either). -/
theorem foldl_processCell_id (L : List Cell) (s : BuildingSystem)
    (h : ∀ c ∈ L, c ∈ s.loadedCells ∨ c ∈ s.buildings.map Prod.fst) :
    L.foldl processCell s = s := by
  induction L with
  | nil => rfl
  | cons c L ih =>
    have hc := processCell_skip s c (h c (List.mem_cons_self c L))
    simp only [List.foldl_cons, hc]
    exact ih fun d hd => h d (List.mem_cons_of_mem _ hd)

/-- A processed, inactive cell stays inactive through the spawn loop. -/
theorem foldl_processCell_not_bkey (L : List Cell) (s : BuildingSystem) (a : Cell)
    (hlc : a ∈ s.loadedCells) (hnb : a ∉ s.buildings.map Prod.fst) :
    a ∉ (L.foldl processCell s).buildings.map Prod.fst := by
  induction L generalizing s with
  | nil => exact hnb
  | cons c L ih =>
    exact ih _ (processCell_lc_mono s c a hlc) (processCell_not_bkey s c a hlc hnb)

/-- The processed set never shrinks under a full `update`. -/
theorem update_lc_mono (s : BuildingSystem) (p : Vec3) (a : Cell)
    (h : a ∈ s.loadedCells) : a ∈ (update s p).loadedCells := by
  unfold update
  dsimp only
  exact foldl_processCell_lc_mono _ s a h

/-- A processed, inactive cell stays processed and inactive under `update`:
no re-roll, no respawn. -/
theorem update_not_respawn_step (s : BuildingSystem) (p : Vec3) (a : Cell)
    (hlc : a ∈ s.loadedCells) (hnb : a ∉ s.buildings.map Prod.fst) :
    a ∈ (update s p).loadedCells ∧
    a ∉ (update s p).buildings.map Prod.fst := by
  unfold update
  dsimp only
  refine ⟨foldl_processCell_lc_mono _ s a hlc, ?_⟩
  intro hmem
  have hmem' : a ∈ ((windowCells (gridCellOf p)).foldl processCell s).buildings.map
      Prod.fst := by
    obtain ⟨kb, hkb, rfl⟩ := List.mem_map.mp hmem
    exact List.mem_map.mpr ⟨kb, List.mem_of_mem_filter hkb, rfl⟩
  exact foldl_processCell_not_bkey _ s a hlc hnb hmem'

end BuildingSystem

/-- Claim C3: once a grid cell enters the processed set, later
`BuildingSystem.update` calls never re-roll its spawn decision: the processed
set only grows, and a cell that is processed but has no active building (for
instance after eviction, when its region is re-entered) is never given one
again. -/
theorem c3_processed_cells_never_rerolled (s : BuildingSystem) (ps : List Vec3)
    (c : Cell) (h1 : c ∈ s.loadedCells) (h2 : c ∉ s.buildings.map Prod.fst) :
    (∀ a ∈ s.loadedCells, a ∈ (ps.foldl BuildingSystem.update s).loadedCells) ∧
    c ∈ (ps.foldl BuildingSystem.update s).loadedCells ∧
    c ∉ (ps.foldl BuildingSystem.update s).buildings.map Prod.fst := by
  induction ps generalizing s with
  | nil => exact ⟨fun a ha => ha, h1, h2⟩
  | cons p ps ih =>
    have hstep := BuildingSystem.update_not_respawn_step s p c h1 h2
    have hrest := ih (BuildingSystem.update s p) hstep.1 hstep.2
    rw [List.foldl_cons]
    exact ⟨fun a ha => hrest.1 a (BuildingSystem.update_lc_mono s p a ha),
      hrest.2.1, hrest.2.2⟩

/-- Witness for C3: a system with the origin cell processed and inactive,
run through one update at the spawn point. -/
theorem c3_processed_cells_never_rerolled_witness :
    (((0, 0) : Cell) ∈ processedOriginSystem.loadedCells ∧
      ((0, 0) : Cell) ∉ processedOriginSystem.buildings.map Prod.fst) ∧
    ((∀ a ∈ processedOriginSystem.loadedCells,
        a ∈ ([(⟨0, 2, 0⟩ : Vec3)].foldl BuildingSystem.update
          processedOriginSystem).loadedCells) ∧
      ((0, 0) : Cell) ∈ ([(⟨0, 2, 0⟩ : Vec3)].foldl BuildingSystem.update
          processedOriginSystem).loadedCells ∧
      ((0, 0) : Cell) ∉ ([(⟨0, 2, 0⟩ : Vec3)].foldl BuildingSystem.update
          processedOriginSystem).buildings.map Prod.fst) := by
  have hm : ((0, 0) : Cell) ∈ processedOriginSystem.loadedCells := by
    simp [processedOriginSystem, emptyBuildings]
  have hn : ((0, 0) : Cell) ∉ processedOriginSystem.buildings.map Prod.fst := by
    simp [processedOriginSystem, emptyBuildings]
  exact ⟨⟨hm, hn⟩,
    c3_processed_cells_never_rerolled processedOriginSystem [⟨0, 2, 0⟩] (0, 0) hm hn⟩

/-- The processed set after `update` is that of its spawn loop. -/
theorem update_loadedCells_eq (s : BuildingSystem) (p : Vec3) :
    (BuildingSystem.update s p).loadedCells
      = ((windowCells (BuildingSystem.gridCellOf p)).foldl
          BuildingSystem.processCell s).loadedCells := by
  simp only [BuildingSystem.update]

/-- The active set after `update` is the spawn loop's, filtered by the
eviction predicate. -/
theorem update_buildings_eq (s : BuildingSystem) (p : Vec3) :
    (BuildingSystem.update s p).buildings
      = ((windowCells (BuildingSystem.gridCellOf p)).foldl
          BuildingSystem.processCell s).buildings.filter
        (fun kb => BuildingSystem.chebKeep (BuildingSystem.gridCellOf p) kb.1) := by
  simp only [BuildingSystem.update]

/-- `update` takes its loaded flag from the spawn loop. -/
theorem update_modelsLoaded_eq (s : BuildingSystem) (p : Vec3) :
    (BuildingSystem.update s p).modelsLoaded
      = ((windowCells (BuildingSystem.gridCellOf p)).foldl
          BuildingSystem.processCell s).modelsLoaded := by
  simp only [BuildingSystem.update]

/-- `update` takes its random-oracle state from the spawn loop. -/
theorem update_rng_eq (s : BuildingSystem) (p : Vec3) :
    (BuildingSystem.update s p).rng
      = ((windowCells (BuildingSystem.gridCellOf p)).foldl
          BuildingSystem.processCell s).rng := by
  simp only [BuildingSystem.update]

/-- Two building-system states agreeing on every field are equal. -/
theorem buildingSystem_ext_fields (a b : BuildingSystem)
    (h1 : a.buildings = b.buildings) (h2 : a.loadedCells = b.loadedCells)
    (h3 : a.modelsLoaded = b.modelsLoaded) (h4 : a.rng = b.rng) : a = b := by
  cases a
  cases b
  dsimp only at h1 h2 h3 h4
  rw [h1, h2, h3, h4]

/-- Claim C4: `BuildingSystem.update` is idempotent at a fixed player
position — the second call changes neither the active building map nor the
processed set (indeed it returns the state unchanged, consuming no
randomness). -/
theorem c4_update_idempotent (s : BuildingSystem) (p : Vec3) :
    BuildingSystem.update (BuildingSystem.update s p) p = BuildingSystem.update s p := by
  have hcov : ∀ c ∈ windowCells (BuildingSystem.gridCellOf p),
      c ∈ (BuildingSystem.update s p).loadedCells ∨
      c ∈ (BuildingSystem.update s p).buildings.map Prod.fst := by
    intro c hc
    rcases BuildingSystem.foldl_processCell_covers
        (windowCells (BuildingSystem.gridCellOf p)) s c hc with h | h
    · left
      rw [update_loadedCells_eq]
      exact h
    · right
      rw [update_buildings_eq]
      obtain ⟨kb, hkb, rfl⟩ := List.mem_map.mp h
      exact List.mem_map.mpr ⟨kb, List.mem_filter.mpr ⟨hkb, chebKeep_of_window hc⟩, rfl⟩
  have hfoldid : (windowCells (BuildingSystem.gridCellOf p)).foldl
      BuildingSystem.processCell (BuildingSystem.update s p) = BuildingSystem.update s p :=
    BuildingSystem.foldl_processCell_id _ _ hcov
  have hfilter : ((BuildingSystem.update s p).buildings.filter
      fun kb => BuildingSystem.chebKeep (BuildingSystem.gridCellOf p) kb.1)
      = (BuildingSystem.update s p).buildings := by
    apply List.filter_eq_self.mpr
    intro kb hkb
    rw [update_buildings_eq] at hkb
    exact (List.mem_filter.mp hkb).2
  apply buildingSystem_ext_fields
  · rw [update_buildings_eq, hfoldid, hfilter]
  · rw [update_loadedCells_eq, hfoldid]
  · rw [update_modelsLoaded_eq, hfoldid]
  · rw [update_rng_eq, hfoldid]

namespace InfiniteGround

/-- `addTile` leaves the key list alone or appends the visited key. -/
theorem addTile_keys (ts : List (Cell × Vec3)) (c : Cell) :
    (addTile ts c).map Prod.fst = ts.map Prod.fst ∨
    (addTile ts c).map Prod.fst = ts.map Prod.fst ++ [c] := by
  unfold addTile
  split
  · exact Or.inl rfl
  · right
    rw [List.map_append]
    rfl

/-- After `addTile` visits a key, the key is present. -/
theorem addTile_self (ts : List (Cell × Vec3)) (c : Cell) :
    c ∈ (addTile ts c).map Prod.fst := by
  unfold addTile
  split
  · assumption
  · rw [List.map_append]
    exact List.mem_append_right _ (by simp)

/-- Keys are never lost by `addTile`. -/
theorem addTile_mono (ts : List (Cell × Vec3)) (c a : Cell)
    (h : a ∈ ts.map Prod.fst) : a ∈ (addTile ts c).map Prod.fst := by
  rcases addTile_keys ts c with he | he <;> rw [he]
  · exact h
  · exact List.mem_append_left _ h

/-- `addTile` keeps the keys duplicate-free (one tile per key). -/
theorem addTile_nodup (ts : List (Cell × Vec3)) (c : Cell)
    (h : (ts.map Prod.fst).Nodup) : ((addTile ts c).map Prod.fst).Nodup := by
  unfold addTile
  split
  · exact h
  · next hc =>
    rw [List.map_append]
    refine List.Nodup.append h (List.nodup_singleton _) ?_
    intro a ha hb
    simp only [List.map_cons, List.map_nil, List.mem_singleton] at hb
    subst hb
    exact hc ha

/-- Keys are never lost across the tile creation loop. -/
theorem foldl_addTile_mono (L : List Cell) (ts : List (Cell × Vec3)) (a : Cell)
    (h : a ∈ ts.map Prod.fst) : a ∈ (L.foldl addTile ts).map Prod.fst := by
  induction L generalizing ts with
  | nil => exact h
  | cons c L ih => exact ih _ (addTile_mono ts c a h)

/-- Every visited window key is present after the creation loop. -/
theorem foldl_addTile_covers (L : List Cell) (ts : List (Cell × Vec3)) (a : Cell)
    (ha : a ∈ L) : a ∈ (L.foldl addTile ts).map Prod.fst := by
  induction L generalizing ts with
  | nil => cases ha
  | cons c L ih =>
    rcases List.mem_cons.mp ha with rfl | ha'
    · exact foldl_addTile_mono L _ a (addTile_self ts a)
    · exact ih _ ha'

/-- The creation loop keeps keys duplicate-free. -/
theorem foldl_addTile_nodup (L : List Cell) (ts : List (Cell × Vec3))
    (h : (ts.map Prod.fst).Nodup) : ((L.foldl addTile ts).map Prod.fst).Nodup := by
  induction L generalizing ts with
  | nil => exact h
  | cons c L ih => exact ih _ (addTile_nodup ts c h)

/-- `InfiniteGround.update` is the creation loop followed by the eviction
filter. -/
theorem ground_update_eq (ts : List (Cell × Vec3)) (p : Vec3) :
    update ts p
      = ((windowCells (tileCellOf p)).foldl addTile ts).filter
          (fun kt => BuildingSystem.chebKeep (tileCellOf p) kt.1) := by
  simp only [update]

end InfiniteGround

/-- Claim C5: after any ground-streamer update at player position `p` (from
any duplicate-free tile map), the active tile key set contains the whole 5×5
window around `p`'s cell, every active key is within Chebyshev grid-distance
3 of that cell, and there is exactly one tile per key. -/
theorem c5_ground_window_invariant (ts : List (Cell × Vec3)) (p : Vec3)
    (hnd : (ts.map Prod.fst).Nodup) :
    (∀ c ∈ windowCells (InfiniteGround.tileCellOf p),
        c ∈ (InfiniteGround.update ts p).map Prod.fst) ∧
    (∀ k ∈ (InfiniteGround.update ts p).map Prod.fst,
        |k.1 - (InfiniteGround.tileCellOf p).1| ≤ 3 ∧
        |k.2 - (InfiniteGround.tileCellOf p).2| ≤ 3) ∧
    ((InfiniteGround.update ts p).map Prod.fst).Nodup := by
  rw [InfiniteGround.ground_update_eq]
  refine ⟨?_, ?_, ?_⟩
  · intro c hc
    have hmem : c ∈ ((windowCells (InfiniteGround.tileCellOf p)).foldl
        InfiniteGround.addTile ts).map Prod.fst :=
      InfiniteGround.foldl_addTile_covers _ ts c hc
    obtain ⟨kt, hkt, rfl⟩ := List.mem_map.mp hmem
    exact List.mem_map.mpr ⟨kt, List.mem_filter.mpr ⟨hkt, chebKeep_of_window hc⟩, rfl⟩
  · intro k hk
    obtain ⟨kt, hkt, rfl⟩ := List.mem_map.mp hk
    exact chebKeep_bounds (List.mem_filter.mp hkt).2
  · exact List.Nodup.sublist ((List.filter_sublist _).map Prod.fst)
      (InfiniteGround.foldl_addTile_nodup _ ts hnd)

/-- Witness for C5 from the empty tile map at the spawn position. -/
theorem c5_ground_window_invariant_witness :
    ((([] : List (Cell × Vec3)).map Prod.fst).Nodup ∧ True) ∧
    ((∀ c ∈ windowCells (InfiniteGround.tileCellOf ⟨0, 2, 0⟩),
        c ∈ (InfiniteGround.update [] ⟨0, 2, 0⟩).map Prod.fst) ∧
      (∀ k ∈ (InfiniteGround.update ([] : List (Cell × Vec3)) ⟨0, 2, 0⟩).map Prod.fst,
        |k.1 - (InfiniteGround.tileCellOf (⟨0, 2, 0⟩ : Vec3)).1| ≤ 3 ∧
        |k.2 - (InfiniteGround.tileCellOf (⟨0, 2, 0⟩ : Vec3)).2| ≤ 3) ∧
      ((InfiniteGround.update ([] : List (Cell × Vec3)) ⟨0, 2, 0⟩).map Prod.fst).Nodup) :=
  ⟨⟨List.nodup_nil, trivial⟩, c5_ground_window_invariant [] ⟨0, 2, 0⟩ List.nodup_nil⟩
